import Mathlib

/-!
Verification of the sarpc RPC framework's protocol and authentication core.

The definitions below are a shallow embedding of the Python sources:
`src/arpc/assistant.py` (signing and verification with nonces, timestamps and
HMAC-SHA256), `src/arpc/protocols/{jsonrpc,pyrpc,picklerpc,jsonsrpc}.py`
(request/response construction and the error taxonomy) and
`src/arpc/server.py` (the request handler).  Machine integers are modelled as
`Nat`/`Int` with explicit reduction modulo 2^32 where the hash algorithm
needs it; Python dictionaries are modelled as association lists; fallible
code returns `Except`/`Option`.
-/

namespace Sarpc

/-! ## Byte-level primitives: UTF-8, SHA-256, HMAC, base64

`assistant.py` signs with
`base64.b64encode(hmac.new(key.encode(), msg.encode(), hashlib.sha256).digest())`.
We embed the complete algorithms: UTF-8 encoding of strings, SHA-256 (FIPS
180-4), HMAC (RFC 2104) and base64.  Bytes are `Nat` values below 256. -/

/-- UTF-8 encoding of a single code point (`str.encode()` in Python). -/
def utf8Char (c : Char) : List Nat :=
  let n := c.toNat
  if n < 0x80 then [n]
  else if n < 0x800 then
    [0xC0 ||| (n >>> 6), 0x80 ||| (n &&& 0x3F)]
  else if n < 0x10000 then
    [0xE0 ||| (n >>> 12), 0x80 ||| ((n >>> 6) &&& 0x3F), 0x80 ||| (n &&& 0x3F)]
  else
    [0xF0 ||| (n >>> 18), 0x80 ||| ((n >>> 12) &&& 0x3F),
     0x80 ||| ((n >>> 6) &&& 0x3F), 0x80 ||| (n &&& 0x3F)]

/-- UTF-8 encoding of a string, as a byte list. -/
def utf8Bytes (s : String) : List Nat :=
  (s.data.map utf8Char).flatten

/-- Truncation to a 32-bit word. -/
def w32 (n : Nat) : Nat := n % 4294967296

/-- 32-bit right rotation. -/
def rotr32 (k x : Nat) : Nat :=
  (x >>> k) ||| w32 (x <<< (32 - k))

/-- SHA-256 small sigma 0. -/
def schedSigma0 (x : Nat) : Nat := (rotr32 7 x) ^^^ (rotr32 18 x) ^^^ (x >>> 3)

/-- SHA-256 small sigma 1. -/
def schedSigma1 (x : Nat) : Nat := (rotr32 17 x) ^^^ (rotr32 19 x) ^^^ (x >>> 10)

/-- SHA-256 big sigma 0. -/
def compSigma0 (x : Nat) : Nat := (rotr32 2 x) ^^^ (rotr32 13 x) ^^^ (rotr32 22 x)

/-- SHA-256 big sigma 1. -/
def compSigma1 (x : Nat) : Nat := (rotr32 6 x) ^^^ (rotr32 11 x) ^^^ (rotr32 25 x)

/-- SHA-256 round constants. -/
def sha256K : List Nat :=
  [1116352408, 1899447441, 3049323471, 3921009573, 961987163,
   1508970993, 2453635748, 2870763221, 3624381080, 310598401,
   607225278, 1426881987, 1925078388, 2162078206, 2614888103,
   3248222580, 3835390401, 4022224774, 264347078, 604807628,
   770255983, 1249150122, 1555081692, 1996064986, 2554220882,
   2821834349, 2952996808, 3210313671, 3336571891, 3584528711,
   113926993, 338241895, 666307205, 773529912, 1294757372,
   1396182291, 1695183700, 1986661051, 2177026350, 2456956037,
   2730485921, 2820302411, 3259730800, 3345764771, 3516065817,
   3600352804, 4094571909, 275423344, 430227734, 506948616,
   659060556, 883997877, 958139571, 1322822218, 1537002063,
   1747873779, 1955562222, 2024104815, 2227730452, 2361852424,
   2428436474, 2756734187, 3204031479, 3329325298]

/-- The SHA-256 working state: eight 32-bit words. -/
structure H8 where
  a : Nat
  b : Nat
  c : Nat
  d : Nat
  e : Nat
  f : Nat
  g : Nat
  h : Nat
deriving Repr, DecidableEq

/-- SHA-256 initial hash value. -/
def sha256IV : H8 :=
  ⟨1779033703, 3144134277, 1013904242, 2773480762,
   1359893119, 2600822924, 528734635, 1541459225⟩

/-- Extend a 16-word block to the 64-word message schedule (fuel 48). -/
def extendW : Nat → List Nat → List Nat
  | 0, ws => ws
  | fuel + 1, ws =>
    let n := ws.length
    let w := w32 (schedSigma1 (ws.getD (n - 2) 0) + ws.getD (n - 7) 0 +
                  schedSigma0 (ws.getD (n - 15) 0) + ws.getD (n - 16) 0)
    extendW fuel (ws ++ [w])

/-- One SHA-256 compression round for round constant `k` and schedule word `w`. -/
def sha256Round (st : H8) (kw : Nat × Nat) : H8 :=
  let t1 := w32 (st.h + compSigma1 st.e + ((st.e &&& st.f) ^^^ ((0xffffffff ^^^ st.e) &&& st.g))
                 + kw.1 + kw.2)
  let t2 := w32 (compSigma0 st.a + ((st.a &&& st.b) ^^^ (st.a &&& st.c) ^^^ (st.b &&& st.c)))
  ⟨w32 (t1 + t2), st.a, st.b, st.c, w32 (st.d + t1), st.e, st.f, st.g⟩

/-- SHA-256 compression of one 16-word block into the chaining state. -/
def sha256Compress (st : H8) (block : List Nat) : H8 :=
  let ws := extendW 48 block
  let r := (sha256K.zip ws).foldl sha256Round st
  ⟨w32 (st.a + r.a), w32 (st.b + r.b), w32 (st.c + r.c), w32 (st.d + r.d),
   w32 (st.e + r.e), w32 (st.f + r.f), w32 (st.g + r.g), w32 (st.h + r.h)⟩

/-- Big-endian 4-byte groups to 32-bit words (fuel-driven). -/
def bytesToWords : Nat → List Nat → List Nat
  | 0, _ => []
  | _, [] => []
  | fuel + 1, l =>
    (((l.getD 0 0) <<< 24) ||| ((l.getD 1 0) <<< 16) |||
     ((l.getD 2 0) <<< 8) ||| l.getD 3 0) :: bytesToWords fuel (l.drop 4)

/-- Split a byte list into 64-byte blocks of 16 words each (fuel-driven). -/
def toBlocks : Nat → List Nat → List (List Nat)
  | 0, _ => []
  | _, [] => []
  | fuel + 1, l => bytesToWords 16 (l.take 64) :: toBlocks fuel (l.drop 64)

/-- A `Nat` as `k` big-endian bytes. -/
def natToBytes : Nat → Nat → List Nat
  | 0, _ => []
  | k + 1, n => (n >>> (8 * k)) % 256 :: natToBytes k n

/-- SHA-256 padding: append `0x80`, zeros, and the 64-bit bit length. -/
def sha256Pad (m : List Nat) : List Nat :=
  let len := m.length
  let zeros := (64 - ((len + 9) % 64)) % 64
  m ++ [0x80] ++ List.replicate zeros 0 ++ natToBytes 8 (len * 8)

/-- The SHA-256 chaining state after absorbing the whole padded message. -/
def sha256H (m : List Nat) : H8 :=
  let p := sha256Pad m
  (toBlocks (p.length) p).foldl sha256Compress sha256IV

/-- The eight state words as 32 big-endian digest bytes. -/
def h8bytes (s : H8) : List Nat :=
  natToBytes 4 s.a ++ natToBytes 4 s.b ++ natToBytes 4 s.c ++ natToBytes 4 s.d ++
  natToBytes 4 s.e ++ natToBytes 4 s.f ++ natToBytes 4 s.g ++ natToBytes 4 s.h

/-- SHA-256 digest of a byte list (`hashlib.sha256(m).digest()`). -/
def sha256 (m : List Nat) : List Nat := h8bytes (sha256H m)

/-- HMAC-SHA256 digest (`hmac.new(key, msg, hashlib.sha256).digest()`). -/
def hmacSha256 (key msg : List Nat) : List Nat :=
  let k0 := if 64 < key.length then sha256 key else key
  let k := k0 ++ List.replicate (64 - k0.length) 0
  sha256 ((k.map (0x5C ^^^ ·)) ++ sha256 ((k.map (0x36 ^^^ ·)) ++ msg))

/-- The base64 alphabet. -/
def b64Alphabet : List Char :=
  "ABCDEFGHIJKLMNOPQRSTUVWXYZabcdefghijklmnopqrstuvwxyz0123456789+/".data

/-- Character `i` of the base64 alphabet. -/
def b64c (i : Nat) : Char := b64Alphabet.getD i 'A'

/-- Base64 encoding (with `=` padding) as a character list. -/
def b64chars : List Nat → List Char
  | [] => []
  | [a] => [b64c (a >>> 2), b64c ((a &&& 3) <<< 4), '=', '=']
  | [a, b] => [b64c (a >>> 2), b64c (((a &&& 3) <<< 4) ||| (b >>> 4)),
               b64c ((b &&& 15) <<< 2), '=']
  | a :: b :: c :: rest =>
    b64c (a >>> 2) :: b64c (((a &&& 3) <<< 4) ||| (b >>> 4)) ::
    b64c (((b &&& 15) <<< 2) ||| (c >>> 6)) :: b64c (c &&& 63) :: b64chars rest

/-- `base64.b64encode(bs).decode()`. -/
def b64encode (bs : List Nat) : String := String.mk (b64chars bs)

/-- `RPCAssistant._sign` (assistant.py:133-134): base64 of the HMAC-SHA256 of
the canonical message under the shared key. -/
def rpcSign (key msg : String) : String :=
  b64encode (hmacSha256 (utf8Bytes key) (utf8Bytes msg))

/-! ## JSON values and `json.dumps`

Request parameters, results and error payloads are JSON data.  The claims
only exercise flat parameter lists/mappings, so values are stratified into
scalars and one level of array/object; `jsonDumps` follows Python's
`json.dumps` with its default separators `', '` and `': '`, `ensure_ascii`
escaping and lowercase hex. -/

/-- A JSON scalar value. -/
inductive JScalar where
  | null
  | jbool (b : Bool)
  | num (n : Int)
  | str (s : String)
deriving Repr, DecidableEq

/-- A JSON value: a scalar, an array of scalars or an object of scalars. -/
inductive JValue where
  | scalar (s : JScalar)
  | arr (xs : List JScalar)
  | obj (fs : List (String × JScalar))
deriving Repr, DecidableEq

/-- Lowercase hexadecimal digit. -/
def hexDigit (n : Nat) : Char :=
  "0123456789abcdef".data.getD n '0'

/-- Four lowercase hex digits of a 16-bit value, as in `\uXXXX` escapes. -/
def hex4 (n : Nat) : List Char :=
  [hexDigit ((n >>> 12) &&& 15), hexDigit ((n >>> 8) &&& 15),
   hexDigit ((n >>> 4) &&& 15), hexDigit (n &&& 15)]

/-- `json.dumps` escaping of one character (default `ensure_ascii=True`:
short escapes, `\u00xx` for other controls, `\uXXXX` and surrogate pairs for
non-ASCII). -/
def jsonEscapeChar (c : Char) : List Char :=
  if c = '"' then ['\\', '"']
  else if c = '\\' then ['\\', '\\']
  else if c = '\x08' then ['\\', 'b']
  else if c = '\x09' then ['\\', 't']
  else if c = '\x0a' then ['\\', 'n']
  else if c = '\x0c' then ['\\', 'f']
  else if c = '\x0d' then ['\\', 'r']
  else if c.toNat < 0x20 then '\\' :: 'u' :: hex4 c.toNat
  else if c.toNat < 0x7F then [c]
  else if c.toNat < 0x10000 then '\\' :: 'u' :: hex4 c.toNat
  else
    let v := c.toNat - 0x10000
    ('\\' :: 'u' :: hex4 (0xD800 + (v >>> 10))) ++
    ('\\' :: 'u' :: hex4 (0xDC00 + (v &&& 0x3FF)))

/-- A JSON string literal: quotes around the escaped characters. -/
def jsonString (s : String) : String :=
  "\"" ++ String.mk ((s.data.map jsonEscapeChar).flatten) ++ "\""

/-- The decimal digits of `n`, least significant first (fuel-driven; empty
for zero). -/
def natDigitsRev : Nat → Nat → List Nat
  | 0, _ => []
  | fuel + 1, n => if n = 0 then [] else n % 10 :: natDigitsRev fuel (n / 10)

/-- The value of a least-significant-first digit list. -/
def digitsVal (l : List Nat) : Nat := l.foldr (fun d acc => acc * 10 + d) 0

/-- The most-significant-first decimal digit list of `n` (`[0]` for zero). -/
def decDigits (n : Nat) : List Nat :=
  if n = 0 then [0] else (natDigitsRev n n).reverse

/-- Python's `str` of a natural number: its decimal digits. -/
def natStr (n : Nat) : String :=
  String.mk ((decDigits n).map (fun d => Char.ofNat (48 + d)))

/-- Python's `str` of an integer: a minus sign for negatives, then the
decimal digits of the absolute value.  This is also how `json.dumps`
renders an integer. -/
def intStr (i : Int) : String :=
  if i < 0 then "-" ++ natStr i.natAbs else natStr i.natAbs

/-- `json.dumps` of a scalar. -/
def jsonDumpsScalar : JScalar → String
  | .null => "null"
  | .jbool true => "true"
  | .jbool false => "false"
  | .num n => intStr n
  | .str s => jsonString s

/-- Comma-joined rendering of array elements (Python separator `', '`). -/
def jsonDumpsElems : List JScalar → String
  | [] => ""
  | [x] => jsonDumpsScalar x
  | x :: xs => jsonDumpsScalar x ++ ", " ++ jsonDumpsElems xs

/-- Comma-joined rendering of object members (Python separators `', '`, `': '`). -/
def jsonDumpsMembers : List (String × JScalar) → String
  | [] => ""
  | [(k, v)] => jsonString k ++ ": " ++ jsonDumpsScalar v
  | (k, v) :: fs => jsonString k ++ ": " ++ jsonDumpsScalar v ++ ", " ++ jsonDumpsMembers fs

/-- `json.dumps` of a JSON value. -/
def jsonDumps : JValue → String
  | .scalar s => jsonDumpsScalar s
  | .arr xs => "[" ++ jsonDumpsElems xs ++ "]"
  | .obj fs => "\x7b" ++ jsonDumpsMembers fs ++ "\x7d"

/-- Python `str()` of an optional integer id: `str(None) = "None"`. -/
def idStr : Option Int → String
  | some n => intStr n
  | none => "None"

/-! ## The authenticated message model (jsonsrpc.py) and canonical strings

`JSONSRPCRequest` / `JSONSRPCSuccessResponse` / `JSONSRPCErrorResponse`
carry the authentication fields `client`, `nonce`, `timestamp`, `sig` next
to the RPC payload.  `RPCAssistant._req_msg` / `_rep_msg` / `_error_rep_msg`
(assistant.py:136-159) build the canonical string that is signed, from the
`_to_dict()` form of the message. -/

/-- An authenticated request (jsonsrpc.py `JSONSRPCRequest`).  `args`/`kwargs`
model Python's `None`-or-list and `None`-or-dict attributes; an absent value
and an empty one are both falsy in every use below. -/
structure SRequest where
  method : String
  uid : Option Int
  args : List JScalar
  kwargs : List (String × JScalar)
  client : String
  nonce : String
  timestamp : Int
  sig : String
deriving Repr, DecidableEq

/-- An authenticated success response (jsonsrpc.py `JSONSRPCSuccessResponse`). -/
structure SSuccessResponse where
  uid : Option Int
  result : JValue
  client : String
  nonce : String
  timestamp : Int
  sig : String
deriving Repr, DecidableEq

/-- An authenticated error response (jsonsrpc.py `JSONSRPCErrorResponse`).
`error` is the message string, `code` the numeric error code, `data` the
optional payload. -/
structure SErrorResponse where
  uid : Option Int
  error : String
  code : Int
  data : Option JScalar
  client : String
  nonce : String
  timestamp : Int
  sig : String
deriving Repr, DecidableEq

/-- A response is either a success or an error response. -/
inductive SResponse where
  | success (r : SSuccessResponse)
  | failure (r : SErrorResponse)
deriving Repr, DecidableEq

/-- The `client` field of either response form. -/
def SResponse.client : SResponse → String
  | .success r => r.client
  | .failure r => r.client

/-- The `nonce` field of either response form. -/
def SResponse.nonce : SResponse → String
  | .success r => r.nonce
  | .failure r => r.nonce

/-- The `timestamp` field of either response form. -/
def SResponse.timestamp : SResponse → Int
  | .success r => r.timestamp
  | .failure r => r.timestamp

/-- The `sig` field of either response form. -/
def SResponse.sig : SResponse → String
  | .success r => r.sig
  | .failure r => r.sig

/-- The `params` entry of `JSONSRPCRequest._to_dict` (jsonsrpc.py:197-211):
present when `args` or `kwargs` is truthy, and `kwargs` overwrites `args`
when both are; the value is already `json.dumps`-serialized there. -/
def reqParamsEntry (r : SRequest) : Option String :=
  if r.kwargs ≠ [] then some (jsonDumps (.obj r.kwargs))
  else if r.args ≠ [] then some (jsonDumps (.arr r.args))
  else none

/-- The id contribution to the canonical request string: `str(d['id'])`
when the id is present, nothing otherwise (assistant.py:144-145). -/
def reqIdPart : Option Int → String
  | some n => intStr n
  | none => ""

/-- The params contribution to the canonical request string:
`json_dumps(d['params'])` when present, `''` otherwise (assistant.py:138-141).
The dict entry is itself a string, hence double-encoded. -/
def reqParamsPart (r : SRequest) : String :=
  match reqParamsEntry r with
  | some p => jsonDumps (.scalar (.str p))
  | none => ""

/-- `RPCAssistant._req_msg` (assistant.py:136-147): the canonical request
string `client + method (+ id) + nonce + timestamp + params`. -/
def reqMsg (r : SRequest) : String :=
  r.client ++ r.method ++ reqIdPart r.uid ++ r.nonce ++ intStr r.timestamp ++
    reqParamsPart r

/-- `RPCAssistant._rep_msg` (assistant.py:149-153): the canonical success
response string `client + id + nonce + timestamp + json.dumps(result)`. -/
def repMsg (r : SSuccessResponse) : String :=
  r.client ++ idStr r.uid ++ r.nonce ++ intStr r.timestamp ++ jsonDumps r.result

/-- The `error` entry of `JSONSRPCErrorResponse._to_dict` (jsonsrpc.py:110-124):
a dict of `message` and `code`, plus `data` when that attribute exists. -/
def errorDict (r : SErrorResponse) : JValue :=
  match r.data with
  | some d => .obj [("message", .str r.error), ("code", .num r.code), ("data", d)]
  | none => .obj [("message", .str r.error), ("code", .num r.code)]

/-- `RPCAssistant._error_rep_msg` (assistant.py:155-159): the canonical error
response string `client + id + nonce + timestamp + json.dumps(error)`. -/
def errorRepMsg (r : SErrorResponse) : String :=
  r.client ++ idStr r.uid ++ r.nonce ++ intStr r.timestamp ++ jsonDumps (errorDict r)

/-- The canonical string checked for a response: `_error_rep_msg` for error
responses, `_rep_msg` otherwise (assistant.py:81-84, 126-129). -/
def respMsg : SResponse → String
  | .success r => repMsg r
  | .failure r => errorRepMsg r

/-! ## The authentication assistant (assistant.py)

The nonce stores are Python dicts mapping nonce to record time (client
role) and client to such a dict (server role); they are modelled as
association lists.  `int(time.time())` is passed in as `now`. -/

/-- `MAX_TIMESTAMP_DELTA` (assistant.py:27). -/
def maxTimestampDelta : Nat := 3600

/-- Update key `k` to `v` in an association list, appending if absent
(Python dict item assignment). -/
def setAssoc {α : Type} (l : List (String × α)) (k : String) (v : α) :
    List (String × α) :=
  match l with
  | [] => [(k, v)]
  | (k', v') :: rest => if k' = k then (k, v) :: rest else (k', v') :: setAssoc rest k v

/-- Drop entries recorded more than `MAX_TIMESTAMP_DELTA` seconds from `now`
(the prune loops of assistant.py:178-180 and 212-214). -/
def pruneNonces (now : Int) (l : List (String × Int)) : List (String × Int) :=
  l.filter (fun p => (now - p.2).natAbs ≤ maxTimestampDelta)

/-- `RPCClientAssistant.client_check_response_nonce` (assistant.py:177-186):
prune stale entries, then reject a seen nonce, else record it at `now`.
Unlike the server role (which iterates `nonces.copy().keys()`), the prune
loop here deletes from `self._reply_nonces` while iterating its live
`keys()` view, so in Python 3 the iteration step after the first deletion
raises `RuntimeError("dictionary changed size during iteration")`: the
check completes only when no entry is stale.  `.error` carries the store
after that single deletion; `.ok` carries the verdict and the store with
the nonce recorded. -/
def clientCheckResponseNonce (now : Int) (store : List (String × Int))
    (nonce : String) : Except (List (String × Int)) (Bool × List (String × Int)) :=
  let stale : String × Int → Bool := fun p => maxTimestampDelta < (now - p.2).natAbs
  match store.find? stale with
  | some _ => .error (store.eraseP stale)
  | none =>
    if (store.lookup nonce).isSome then .ok (false, store)
    else .ok (true, store ++ [(nonce, now)])

/-- `RPCServerAssistant.server_check_request_nonce` (assistant.py:206-220):
fetch (or create) the per-client store, prune it, then reject a seen nonce,
else record it at `now`. -/
def serverCheckRequestNonce (now : Int) (stores : List (String × List (String × Int)))
    (client nonce : String) :
    Bool × List (String × List (String × Int)) :=
  let nonces := (stores.lookup client).getD []
  let pruned := pruneNonces now nonces
  if (pruned.lookup nonce).isSome then (false, setAssoc stores client pruned)
  else (true, setAssoc stores client (pruned ++ [(nonce, now)]))

/-- `RPCAssistant.client_sign_request` (assistant.py:54-68): attach the fresh
`nonce`, the current timestamp `now` and the client identity, then sign the
canonical request string with the client's key.  The random nonce and the
clock reading are parameters of the embedding. -/
def clientSignRequest (client key nonce : String) (now : Int) (req : SRequest) :
    SRequest :=
  let r := { req with nonce := nonce, timestamp := now, client := client }
  { r with sig := rpcSign key (reqMsg r) }

/-- Verdict of the server-side request check; `ok` means no error raised. -/
inductive SCheck where
  | ok
  | unknownClient
  | timestampError
  | nonceError
  | signatureError
deriving Repr, DecidableEq

/-- `RPCAssistant.server_check_request` (assistant.py:95-114) with the
`RPCServerAssistant` callbacks (key table lookup `clients.get`, per-client
nonce store): key lookup (`if not key` catches both a missing and an empty
key), timestamp window, nonce check (which records the nonce), then the
signature comparison.  Returns the verdict and the updated nonce stores. -/
def serverCheckRequest (clients : List (String × String))
    (stores : List (String × List (String × Int))) (now : Int) (req : SRequest) :
    SCheck × List (String × List (String × Int)) :=
  match clients.lookup req.client with
  | none => (.unknownClient, stores)
  | some key =>
    if key = "" then (.unknownClient, stores)
    else if maxTimestampDelta < (now - req.timestamp).natAbs then
      (.timestampError, stores)
    else
      let (fresh, stores') := serverCheckRequestNonce now stores req.client req.nonce
      if ¬ fresh then (.nonceError, stores')
      else if rpcSign key (reqMsg req) = req.sig then (.ok, stores')
      else (.signatureError, stores')

/-- Verdict of the client-side response check; `ok` means no error raised. -/
inductive CCheck where
  | ok
  | clientMismatch
  | sigError
  | nonceError
  | timestampError
deriving Repr, DecidableEq

/-- `RPCAssistant.client_check_response` (assistant.py:70-93) with the
`RPCClientAssistant` callbacks: client identity match, signature comparison
against the canonical response string, nonce check (which records the
nonce), then the timestamp window.  Returns the verdict and the updated
reply-nonce store; `.error` propagates the `RuntimeError` of the nonce
prune (see `clientCheckResponseNonce`) with the store it leaves behind. -/
def clientCheckResponse (client key : String) (store : List (String × Int))
    (now : Int) (resp : SResponse) :
    Except (List (String × Int)) (CCheck × List (String × Int)) :=
  if resp.client ≠ client then .ok (.clientMismatch, store)
  else if resp.sig ≠ rpcSign key (respMsg resp) then .ok (.sigError, store)
  else
    match clientCheckResponseNonce now store resp.nonce with
    | .error s => .error s
    | .ok (fresh, store') =>
      if ¬ fresh then .ok (.nonceError, store')
      else if maxTimestampDelta < (now - resp.timestamp).natAbs then
        .ok (.timestampError, store')
      else .ok (.ok, store')

/-- `RPCAssistant.server_sign_response` (assistant.py:116-131): attach a
fresh nonce and the current timestamp; if the responding client's key is
missing or empty, emit the response with an empty signature, else sign the
canonical response string. -/
def serverSignResponse (clients : List (String × String)) (nonce : String)
    (now : Int) (resp : SResponse) : SResponse :=
  let put (r : SResponse) (s : String) : SResponse := match r with
    | .success x => .success { x with sig := s }
    | .failure x => .failure { x with sig := s }
  let stamp (r : SResponse) : SResponse := match r with
    | .success x => .success { x with nonce := nonce, timestamp := now }
    | .failure x => .failure { x with nonce := nonce, timestamp := now }
  let r := stamp resp
  match clients.lookup r.client with
  | none => put r ""
  | some key =>
    if key = "" then put r ""
    else put r (rpcSign key (respMsg r))

/-! ## Exceptions and the JSONRPC codec (exceptions.py, protocols/jsonrpc.py)

`ExcM` models the Python exception instances that can reach
`create_error_response`: an `exceptions.RpcError` instance already carrying
a `(code, message, data)` triple, the plain taxonomy classes, the
module-level `JSONRPCInvalidRequestError` of jsonrpc.py:61 — which shadows
the coded class of jsonrpc.py:21 and subclasses only `BaseError` — and any
unrelated exception. -/

/-- A Python exception as seen by `create_error_response`. -/
inductive ExcM where
  | rpcError (code : Int) (message : String) (data : Option JScalar)
  | parseError
  | invalidRequestError
  | methodNotFoundError
  | invalidParamsError (msg : String)
  | internalError
  | serverError
  | invalidRequestShadow (msg : String)
  | otherError (msg : String)
deriving Repr, DecidableEq

/-- A JSONRPC request (jsonrpc.py `JSONRPCRequest`). -/
structure JRequest where
  method : String
  uid : Option Int
  args : List JScalar
  kwargs : List (String × JScalar)
deriving Repr, DecidableEq

/-- A JSONRPC success response (jsonrpc.py `JSONRPCSuccessResponse`). -/
structure JSuccessResponse where
  uid : Option Int
  result : JValue
deriving Repr, DecidableEq

/-- A JSONRPC error response (jsonrpc.py `JSONRPCErrorResponse`). -/
structure JErrorResponse where
  uid : Option Int
  code : Int
  message : String
  data : Option JScalar
deriving Repr, DecidableEq

/-- A parsed JSONRPC reply (success or error). -/
inductive JResponse where
  | success (r : JSuccessResponse)
  | failure (r : JErrorResponse)
deriving Repr, DecidableEq

/-- `JSONRPCProtocol.create_request` (jsonrpc.py:139-147): reject truthy
`args` together with truthy `kwargs` (raising the module-level
`JSONRPCInvalidRequestError`), assign the next counter value as id unless
`one_way`.  The id counter is threaded explicitly. -/
def jsonrpcCreateRequest (counter : Int) (method : String) (args : List JScalar)
    (kwargs : List (String × JScalar)) (one_way : Bool) :
    Except ExcM (JRequest × Int) :=
  if args ≠ [] ∧ kwargs ≠ [] then
    .error (.invalidRequestShadow "Does not support args and kwargs at the same time.")
  else if one_way then .ok (⟨method, none, args, kwargs⟩, counter)
  else .ok (⟨method, some (counter + 1), args, kwargs⟩, counter + 1)

/-- `JSONRPCProtocol.create_response` (jsonrpc.py:149-150). -/
def jsonrpcCreateResponse (req : JRequest) (reply : JValue) : JSuccessResponse :=
  ⟨req.uid, reply⟩

/-- `JSONRPCProtocol.create_error_response` (jsonrpc.py:152-173): an
`exceptions.RpcError` instance passes through with its code, message and
data unchanged; the plain taxonomy classes are replaced by their coded
JSONRPC counterparts; anything else becomes `JSONRPCInternalError`.  The
`exceptions.InvalidRequestError` branch instantiates the shadowing
`JSONRPCInvalidRequestError` of jsonrpc.py:61, which carries no `code`
attribute, so reading `exception.code` afterwards raises `AttributeError`:
that branch is `.error ()`. -/
def jsonrpcCreateErrorResponse (exc : ExcM) (uid : Option Int) :
    Except Unit JErrorResponse :=
  match exc with
  | .rpcError c m d => .ok ⟨uid, c, m, d⟩
  | .parseError => .ok ⟨uid, -32700, "Parse error", none⟩
  | .invalidRequestError => .error ()
  | .methodNotFoundError => .ok ⟨uid, -32601, "Method not found", none⟩
  | .invalidParamsError m => .ok ⟨uid, -32602, "Invalid params", some (.str m)⟩
  | .internalError => .ok ⟨uid, -32603, "Internal error", none⟩
  | .serverError => .ok ⟨uid, -32000, "Server error", none⟩
  | .invalidRequestShadow _ => .ok ⟨uid, -32603, "Internal error", none⟩
  | .otherError _ => .ok ⟨uid, -32603, "Internal error", none⟩

/-- Python truthiness of a JSON scalar. -/
def jsTruthy : JScalar → Bool
  | .null => false
  | .jbool b => b
  | .num n => n ≠ 0
  | .str s => s ≠ ""

/-- Python truthiness of a JSON value. -/
def jTruthy : JValue → Bool
  | .scalar s => jsTruthy s
  | .arr xs => xs ≠ []
  | .obj fs => fs ≠ []

/-- The keys allowed in a JSONRPC request (jsonrpc.py:126). -/
def allowedRequestKeys : List String := ["id", "jsonrpc", "method", "params"]

/-- `JSONRPCProtocol.parse_request` (jsonrpc.py:175-201): reject unknown
keys and a wrong or missing version tag, require `method` to be a string
and a truthy `id` to be an integer, and require `params` to be a list
(args) or a dict (kwargs).  A missing `method` key is a Python `KeyError`.
A falsy non-integer `id` (such as `""` or `false`) survives the type check
in the source and is conflated with an absent id here. -/
def jsonrpcParseRequest (data : List (String × JValue)) : Except ExcM JRequest := do
  match data.find? (fun kv => ¬ allowedRequestKeys.contains kv.1) with
  | some kv => .error (.invalidRequestShadow ("Key not allowed: " ++ kv.1))
  | none =>
  if data.lookup "jsonrpc" ≠ some (.scalar (.str "2.0")) then
    .error (.invalidRequestShadow "Wrong or missing jsonrpc version")
  else do
  let method ← match data.lookup "method" with
    | none => .error (.otherError "KeyError")
    | some (.scalar (.str s)) => pure s
    | some _ => .error (.invalidRequestShadow "method must be str")
  let uid ← match data.lookup "id" with
    | none => pure none
    | some (.scalar (.num n)) => pure (some n)
    | some v =>
      if jTruthy v then .error (.invalidRequestShadow "id must be int")
      else pure (none : Option Int)
  match data.lookup "params" with
  | some (.arr xs) => pure ⟨method, uid, xs, []⟩
  | some (.obj fs) => pure ⟨method, uid, [], fs⟩
  | _ => .error (.rpcError (-32602) "params must be list or dict" none)

/-- The JSON form of an optional id (`None` becomes JSON `null`). -/
def uidJ : Option Int → JValue
  | some n => .scalar (.num n)
  | none => .scalar .null

/-- `JSONRPCSuccessResponse.to_data` (jsonrpc.py:89-94). -/
def jsuccessToData (r : JSuccessResponse) : List (String × JValue) :=
  [("jsonrpc", .scalar (.str "2.0")), ("id", uidJ r.uid), ("result", r.result)]

/-- `JSONRPCErrorResponse.to_data` (jsonrpc.py:106-118): the `data` member
is attached only when truthy. -/
def jerrorToData (r : JErrorResponse) : List (String × JValue) :=
  let err : List (String × JScalar) :=
    match r.data with
    | some d => if jsTruthy d then
        [("code", .num r.code), ("message", .str r.message), ("data", d)]
      else [("code", .num r.code), ("message", .str r.message)]
    | none => [("code", .num r.code), ("message", .str r.message)]
  [("jsonrpc", .scalar (.str "2.0")), ("id", uidJ r.uid), ("error", .obj err)]

/-- `to_data` of either reply form. -/
def jresponseToData : JResponse → List (String × JValue)
  | .success r => jsuccessToData r
  | .failure r => jerrorToData r

/-! ## The PyRPC and PickleRPC codecs (protocols/pyrpc.py, protocols/picklerpc.py) -/

/-- A pyrpc `Protocol.Error` instance (protocols/__init__.py): a
`(code, message, data)` triple. -/
structure PyErr where
  code : Int
  message : String
  data : Option JScalar
deriving Repr, DecidableEq

/-- A PyRPC request (pyrpc.py `PyRPCProtocol.Request`). -/
structure PyRequest where
  method : String
  uid : Option Int
  args : List JScalar
  kwargs : List (String × JScalar)
deriving Repr, DecidableEq

/-- A PyRPC error response (pyrpc.py `PyRPCProtocol.ErrorResponse`). -/
structure PyErrorResponse where
  uid : Option Int
  code : Int
  message : String
  data : Option JScalar
deriving Repr, DecidableEq

/-- `PyRPCProtocol.create_request` (pyrpc.py:136-144): reject truthy `args`
together with truthy `kwargs` with `self.InvalidRequestError` (code
`-32600`), assign the next counter value as id unless `one_way`. -/
def pyrpcCreateRequest (counter : Int) (method : String) (args : List JScalar)
    (kwargs : List (String × JScalar)) (one_way : Bool) :
    Except PyErr (PyRequest × Int) :=
  if args ≠ [] ∧ kwargs ≠ [] then
    .error ⟨-32600, "Does not support args and kwargs at the same time.", none⟩
  else if one_way then .ok (⟨method, none, args, kwargs⟩, counter)
  else .ok (⟨method, some (counter + 1), args, kwargs⟩, counter + 1)

/-- Whether an exception instance is a pyrpc `Protocol.Error`
(`isinstance(exc, self.Error)`); in this embedding the coded exception
values play that role. -/
def pyrpcIsProtocolError : ExcM → Bool
  | .rpcError _ _ _ => true
  | _ => false

/-- `PyRPCProtocol.create_error_response` (pyrpc.py:149-153).  The source
reads `e = self.InternalError() if isinstance(exc, self.Error) else
self.InternalError()`: both arms of the conditional are the same
`InternalError()` (code `-32603`, message `"Internal error"`, data `None`),
so the incoming exception's own code is never preserved. -/
def pyrpcCreateErrorResponse (exc : ExcM) (uid : Option Int) : PyErrorResponse :=
  let e : PyErr :=
    if pyrpcIsProtocolError exc then ⟨-32603, "Internal error", none⟩
    else ⟨-32603, "Internal error", none⟩
  ⟨uid, e.code, e.message, e.data⟩

/-- A PickleRPC request (picklerpc.py `Request`). -/
structure PickleRequest where
  method : String
  uid : Option Int
  args : List JScalar
  kwargs : List (String × JScalar)
deriving Repr, DecidableEq

/-- `PickleRPCProtocol.create_request` (picklerpc.py:180-190): assign the
next counter value as id unless `one_way` and store `method`, `args` and
`kwargs` on the request.  No args/kwargs exclusivity check is performed and
no error can be raised. -/
def picklerpcCreateRequest (counter : Int) (method : String) (args : List JScalar)
    (kwargs : List (String × JScalar)) (one_way : Bool) :
    Except PyErr (PickleRequest × Int) :=
  if one_way then .ok (⟨method, none, args, kwargs⟩, counter)
  else .ok (⟨method, some (counter + 1), args, kwargs⟩, counter + 1)

/-! ## The server call orchestrator (server.py) -/

/-- Modelled from the spec: the external serializer collaborator of §6
(`encode(structured_data) -> bytes` / `decode(bytes) -> structured_data`),
which `src/arpc/serializer.py` only declares as an abstract interface.
Wire bytes are modelled as `String`. -/
structure SerializerM where
  serialize : List (String × JValue) → String
  deserialize : String → Except Unit (List (String × JValue))

/-- `Server.handler` (server.py:55-97) over the JSONRPC codec: deserialize,
parse, dispatch and build a success response; any exception in that block
is mapped through `create_error_response` (with the request's id when the
request was already parsed, else `None`).  The response — never `None` for
this codec — is then serialized and returned.  `.ok none` mirrors the dead
`if response is not None` guard; `.error ()` is an exception escaping the
`except` block itself (the `AttributeError` of
`jsonrpcCreateErrorResponse`). -/
def serverHandler (ser : SerializerM) (dispatch : JRequest → Except ExcM JValue)
    (message : String) : Except Unit (Option String) := do
  let resp : Except Unit (Option JResponse) :=
    match ser.deserialize message with
    | .error _ => (jsonrpcCreateErrorResponse (.otherError "deserialize failed") none).map
        (fun r => some (.failure r))
    | .ok reqData =>
      match jsonrpcParseRequest reqData with
      | .error e => (jsonrpcCreateErrorResponse e none).map (fun r => some (.failure r))
      | .ok req =>
        match dispatch req with
        | .error e => (jsonrpcCreateErrorResponse e req.uid).map (fun r => some (.failure r))
        | .ok reply => .ok (some (.success (jsonrpcCreateResponse req reply)))
  match resp with
  | .error _ => .error ()
  | .ok none => .ok none
  | .ok (some r) => .ok (some (ser.serialize (jresponseToData r)))

/-- Object members of a top-level wire message, rendered with Python's
default separators. -/
def jsonDumpsDocMembers : List (String × JValue) → String
  | [] => ""
  | [(k, v)] => jsonString k ++ ": " ++ jsonDumps v
  | (k, v) :: fs => jsonString k ++ ": " ++ jsonDumps v ++ ", " ++ jsonDumpsDocMembers fs

/-- `json.dumps` of a top-level wire message (a dict of JSON values), as the
JSON serializer (serializers/json.py) produces it. -/
def jsonDumpsDoc (fs : List (String × JValue)) : String :=
  "\x7b" ++ jsonDumpsDocMembers fs ++ "\x7d"

/-- The ids handed out by `n` sequential non-one-way `create_request` calls
on one `JSONRPCProtocol` instance whose counter starts at `c`
(jsonrpc.py:128-147).  The unreachable error and missing-id cases yield
dummy values. -/
def jsonrpcSeqIds (c : Int) : Nat → List Int
  | 0 => []
  | n + 1 =>
    match jsonrpcCreateRequest c "method" [] [] false with
    | .ok (req, c') => (match req.uid with | some u => u | none => 0) :: jsonrpcSeqIds c' n
    | .error _ => []

/-- The ids handed out by `n` sequential non-one-way `create_request` calls
on one `PyRPCProtocol` instance whose counter starts at `c`
(pyrpc.py:124-144).  The unreachable error and missing-id cases yield dummy
values. -/
def pyrpcSeqIds (c : Int) : Nat → List Int
  | 0 => []
  | n + 1 =>
    match pyrpcCreateRequest c "method" [] [] false with
    | .ok (req, c') => (match req.uid with | some u => u | none => 0) :: pyrpcSeqIds c' n
    | .error _ => []

/-! ## Concrete fixtures used by the witness and counterexample theorems -/

/-- A request before signing: method `"add"`, args `[2, 3]`, id 1. -/
def wBase : SRequest := ⟨"add", some 1, [.num 2, .num 3], [], "", "", 0, ""⟩

/-- `wBase` signed by client `"alice"` with key `"k"`, nonce `"n"`, at
time 5000. -/
def wSigned : SRequest := clientSignRequest "alice" "k" "n" 5000 wBase

/-- `wBase` signed by client `"alice"` whose registered key is the empty
string. -/
def wSignedEmptyKey : SRequest := clientSignRequest "alice" "" "n" 5000 wBase

/-- A request whose canonical fields concatenate to `"aliceabc1000"`:
method `"ab"`, nonce `"c"`, no id, no params. -/
def tOrig : SRequest := clientSignRequest "alice" "k" "c" 1000 ⟨"ab", none, [], [], "", "", 0, ""⟩

/-- A cross-field tampering of `tOrig`: method `"a"`, nonce `"bc"`, same
attached signature.  Its canonical fields concatenate to the same string
`"aliceabc1000"`. -/
def tCross : SRequest := ⟨"a", none, [], [], "alice", "bc", 1000, tOrig.sig⟩

/-- A single-field tampering of `tOrig`: only the method changes
(`"ab"` to `"xb"`), the attached signature is kept. -/
def tMethod : SRequest := ⟨"xb", none, [], [], "alice", "c", 1000, tOrig.sig⟩

/-- A single-field tampering of `tOrig`: only the nonce changes
(`"c"` to `"x"`), the attached signature is kept. -/
def tNonce : SRequest := ⟨"ab", none, [], [], "alice", "x", 1000, tOrig.sig⟩

/-- A single-field tampering of `tOrig`: only the timestamp changes
(1000 to 999), the attached signature is kept. -/
def tTime : SRequest := ⟨"ab", none, [], [], "alice", "c", 999, tOrig.sig⟩

/-- A single-field tampering of `tOrig`: only the params change (empty to
args `[1]`), the attached signature is kept. -/
def tParams : SRequest := ⟨"ab", none, [.num 1], [], "alice", "c", 1000, tOrig.sig⟩

/-- `wBase` signed at time 1401, which is `5000 - 3600 + 1`: on the fresh
side of the staleness boundary for a server clock reading 5000. -/
def wStale : SRequest := clientSignRequest "alice" "k" "n" 1401 wBase

/-- A success response from client `"alice"`, signed with key `"k"` at
time 0 with nonce `"n"`. -/
def wResp : SResponse :=
  .success ⟨some 1, .scalar (.num 5), "alice", "n", 0,
    rpcSign "k" (respMsg (.success ⟨some 1, .scalar (.num 5), "alice", "n", 0, ""⟩))⟩

/-- A success response carrying an empty signature. -/
def wRespEmptySig : SResponse := .success ⟨some 1, .scalar (.num 5), "alice", "n", 0, ""⟩

/-- Wire data of a one-way JSONRPC request (no `id` member). -/
def owData : List (String × JValue) :=
  [("jsonrpc", .scalar (.str "2.0")), ("method", .scalar (.str "ping")), ("params", .arr [])]

/-- A test instantiation of the external serializer contract: serialization
is the JSON rendering, and the single message `"MSG"` decodes to `owData`. -/
def owSerializer : SerializerM :=
  ⟨fun d => jsonDumpsDoc d, fun s => if s = "MSG" then .ok owData else .error ()⟩

/-- A dispatcher that answers every request with `7`. -/
def owDispatch : JRequest → Except ExcM JValue := fun _ => .ok (.scalar (.num 7))

/-! ## Helper lemmas -/

set_option maxRecDepth 1000000 in
/-- The SHA-256 embedding reproduces the FIPS 180-4 digest of the empty
message. -/
theorem sha256_empty_vector :
    sha256 [] =
      [227, 176, 196, 66, 152, 252, 28, 20,
       154, 251, 244, 200, 153, 111, 185, 36,
       39, 174, 65, 228, 100, 155, 147, 76,
       164, 149, 153, 27, 120, 82, 184, 85] := by decide

/-- `natToBytes` with four bytes of fuel, spelled out. -/
theorem natToBytes_four (n : Nat) :
    natToBytes 4 n = [(n >>> 24) % 256, (n >>> 16) % 256, (n >>> 8) % 256, (n >>> 0) % 256] :=
  rfl

/-- Base64 of a nonempty byte list is nonempty. -/
theorem b64chars_ne_nil (a : Nat) (l : List Nat) : b64chars (a :: l) ≠ [] := by
  match l with
  | [] => simp [b64chars]
  | [_] => simp [b64chars]
  | _ :: _ :: _ => simp [b64chars]

/-- `_sign` never produces an empty signature: the digest has 32 bytes, so
its base64 form is nonempty. -/
theorem rpcSign_ne_empty (k m : String) : rpcSign k m ≠ "" := by
  intro h
  have hdata := congrArg String.data h
  have hcons : ∃ a l, hmacSha256 (utf8Bytes k) (utf8Bytes m) = a :: l := ⟨_, _, rfl⟩
  obtain ⟨a, l, hl⟩ := hcons
  rw [rpcSign, b64encode, hl] at hdata
  exact b64chars_ne_nil a l hdata

/-- `digitsVal` of a cons. -/
theorem digitsVal_cons (d : Nat) (l : List Nat) :
    digitsVal (d :: l) = digitsVal l * 10 + d := rfl

/-- With enough fuel, `natDigitsRev` reconstructs its input. -/
theorem natDigitsRev_val : ∀ (fuel n : Nat), n ≤ fuel →
    digitsVal (natDigitsRev fuel n) = n := by
  intro fuel
  induction fuel with
  | zero =>
    intro n h
    have h0 : n = 0 := Nat.le_zero.mp h
    simp [natDigitsRev, digitsVal, h0]
  | succ fuel ih =>
    intro n h
    by_cases h0 : n = 0
    · simp [natDigitsRev, digitsVal, h0]
    · have hlt : n / 10 < n := Nat.div_lt_self (Nat.pos_of_ne_zero h0) (by omega)
      have hdiv : n / 10 ≤ fuel := by omega
      simp only [natDigitsRev, if_neg h0, digitsVal_cons]
      rw [ih (n / 10) hdiv]
      omega

/-- Every digit produced by `natDigitsRev` is below ten. -/
theorem natDigitsRev_lt_ten : ∀ (fuel n : Nat), ∀ d ∈ natDigitsRev fuel n, d < 10 := by
  intro fuel
  induction fuel with
  | zero =>
    intro n d hd
    simp [natDigitsRev] at hd
  | succ fuel ih =>
    intro n d hd
    by_cases h0 : n = 0
    · simp [natDigitsRev, h0] at hd
    · simp only [natDigitsRev, if_neg h0] at hd
      rcases List.mem_cons.mp hd with h | h
      · omega
      · exact ih _ _ h

/-- The most-significant-first digits of `n` reconstruct `n`. -/
theorem decDigits_val (n : Nat) : digitsVal (decDigits n).reverse = n := by
  by_cases h0 : n = 0
  · simp [decDigits, h0, digitsVal]
  · simp only [decDigits, if_neg h0, List.reverse_reverse]
    exact natDigitsRev_val n n (Nat.le_refl n)

/-- Every entry of `decDigits` is below ten. -/
theorem decDigits_lt (n : Nat) : ∀ d ∈ decDigits n, d < 10 := by
  by_cases h0 : n = 0
  · simp [decDigits, h0]
  · intro d hd
    simp only [decDigits, if_neg h0, List.mem_reverse] at hd
    exact natDigitsRev_lt_ten n n d hd

/-- `decDigits` is never empty. -/
theorem decDigits_ne_nil (n : Nat) : decDigits n ≠ [] := by
  by_cases h0 : n = 0
  · simp [decDigits, h0]
  · simp only [decDigits, if_neg h0]
    intro h
    have hnil : natDigitsRev n n = [] := by
      simpa using congrArg List.reverse h
    have hval := natDigitsRev_val n n (Nat.le_refl n)
    rw [hnil] at hval
    have h2 : (0 : Nat) = n := hval
    exact h0 h2.symm

/-- Distinct decimal digits map to distinct characters. -/
theorem digitChar_inj10 : ∀ d1 d2 : Fin 10,
    Char.ofNat (48 + d1.val) = Char.ofNat (48 + d2.val) → d1 = d2 := by decide

/-- A decimal digit character is not the minus sign. -/
theorem digitChar_ne_minus : ∀ d : Fin 10, Char.ofNat (48 + d.val) ≠ '-' := by decide

/-- Mapping digit lists (all entries below ten) to characters is injective. -/
theorem digitsChars_inj : ∀ (l1 l2 : List Nat), (∀ d ∈ l1, d < 10) → (∀ d ∈ l2, d < 10) →
    l1.map (fun d => Char.ofNat (48 + d)) = l2.map (fun d => Char.ofNat (48 + d)) →
    l1 = l2 := by
  intro l1
  induction l1 with
  | nil =>
    intro l2 _ _ h
    cases l2 with
    | nil => rfl
    | cons e t => simp at h
  | cons d t ih =>
    intro l2 h1 h2 h
    cases l2 with
    | nil => simp at h
    | cons e t2 =>
      simp only [List.map_cons, List.cons.injEq] at h
      have hd : d < 10 := h1 d (by simp)
      have he : e < 10 := h2 e (by simp)
      have hde : d = e := congrArg Fin.val (digitChar_inj10 ⟨d, hd⟩ ⟨e, he⟩ h.1)
      exact List.cons_eq_cons.mpr
        ⟨hde, ih t2 (fun x hx => h1 x (by simp [hx])) (fun x hx => h2 x (by simp [hx])) h.2⟩

/-- `natStr` is injective. -/
theorem natStr_inj {n1 n2 : Nat} (h : natStr n1 = natStr n2) : n1 = n2 := by
  have hdata := congrArg String.data h
  have hdig := digitsChars_inj (decDigits n1) (decDigits n2)
    (decDigits_lt n1) (decDigits_lt n2) hdata
  have hval := congrArg (fun l : List Nat => digitsVal l.reverse) hdig
  simp only at hval
  rw [decDigits_val, decDigits_val] at hval
  exact hval

/-- The first character of `natStr` is a decimal digit. -/
theorem natStr_head (n : Nat) : ∃ d t, d < 10 ∧
    (natStr n).data = Char.ofNat (48 + d) :: t := by
  obtain ⟨d, rest, hd⟩ : ∃ d rest, decDigits n = d :: rest := by
    cases hc : decDigits n with
    | nil => exact absurd hc (decDigits_ne_nil n)
    | cons d rest => exact ⟨d, rest, rfl⟩
  refine ⟨d, rest.map (fun d => Char.ofNat (48 + d)), decDigits_lt n d (by rw [hd]; simp), ?_⟩
  show (decDigits n).map (fun d => Char.ofNat (48 + d)) = _
  rw [hd, List.map_cons]

/-- `intStr` is injective: Python renders distinct integers as distinct
decimal strings. -/
theorem intStr_inj {i1 i2 : Int} (h : intStr i1 = intStr i2) : i1 = i2 := by
  have hminus : ("-" : String).data = ['-'] := rfl
  by_cases h1 : i1 < 0 <;> by_cases h2 : i2 < 0
  · rw [intStr, if_pos h1, intStr, if_pos h2] at h
    have hdata := congrArg String.data h
    rw [String.data_append, String.data_append] at hdata
    have hn := natStr_inj (String.ext (List.append_cancel_left hdata))
    omega
  · exfalso
    rw [intStr, if_pos h1, intStr, if_neg h2] at h
    obtain ⟨d, t, hd, hdat⟩ := natStr_head i2.natAbs
    have hdata := congrArg String.data h
    rw [String.data_append, hminus, hdat] at hdata
    have hhead : '-' = Char.ofNat (48 + d) := (List.cons_eq_cons.mp hdata).1
    exact digitChar_ne_minus ⟨d, hd⟩ hhead.symm
  · exfalso
    rw [intStr, if_neg h1, intStr, if_pos h2] at h
    obtain ⟨d, t, hd, hdat⟩ := natStr_head i1.natAbs
    have hdata := congrArg String.data h.symm
    rw [String.data_append, hminus, hdat] at hdata
    have hhead : '-' = Char.ofNat (48 + d) := (List.cons_eq_cons.mp hdata).1
    exact digitChar_ne_minus ⟨d, hd⟩ hhead.symm
  · rw [intStr, if_neg h1, intStr, if_neg h2] at h
    have hn := natStr_inj h
    omega

set_option maxRecDepth 1000000 in
/-- The embedded decimal rendering agrees with Lean's own on a sample
range, anchoring it externally. -/
theorem intStr_agrees_toString : ∀ i : Fin 300,
    intStr (i.val : Int) = toString (i.val : Int) ∧
    intStr (-(i.val : Int)) = toString (-(i.val : Int)) := by decide

/-- Looking up the just-set key of an association list. -/
theorem lookup_setAssoc_self {α : Type} (l : List (String × α)) (k : String) (v : α) :
    (setAssoc l k v).lookup k = some v := by
  induction l with
  | nil => simp [setAssoc, List.lookup]
  | cons p rest ih =>
    by_cases h : p.1 = k
    · simp [setAssoc, h, List.lookup]
    · have hb : (k == p.1) = false := by simp [Ne.symm h]
      simp [setAssoc, h, List.lookup, hb, ih]

/-- Lookup distributes over append when the key misses the first part. -/
theorem lookup_append_of_none {α : Type} {l1 : List (String × α)} (l2 : List (String × α))
    (k : String) (h : l1.lookup k = none) : (l1 ++ l2).lookup k = l2.lookup k := by
  induction l1 with
  | nil => simp
  | cons p rest ih =>
    by_cases hk : p.1 = k
    · simp [List.lookup, hk] at h
    · simp only [List.lookup, List.cons_append] at h ⊢
      rw [show (k == p.1) = false by simp [Ne.symm hk]] at h ⊢
      exact ih h

/-- A key that occurs in an association list is found by lookup. -/
theorem lookup_isSome_of_mem {α : Type} {l : List (String × α)} {k : String} {v : α}
    (h : (k, v) ∈ l) : (l.lookup k).isSome = true := by
  induction l with
  | nil => simp at h
  | cons p rest ih =>
    by_cases hk : k = p.1
    · simp [List.lookup, hk]
    · have hb : (k == p.1) = false := by simp [hk]
      simp only [List.lookup, hb]
      rcases List.mem_cons.mp h with heq | hmem
      · exact absurd (congrArg Prod.fst heq) hk
      · exact ih hmem

/-- The signed request carries the client identity it was signed with. -/
theorem clientSignRequest_client (client key nonce : String) (now : Int) (req : SRequest) :
    (clientSignRequest client key nonce now req).client = client := rfl

/-- The signed request carries the nonce it was signed with. -/
theorem clientSignRequest_nonce (client key nonce : String) (now : Int) (req : SRequest) :
    (clientSignRequest client key nonce now req).nonce = nonce := rfl

/-- The signed request carries the clock reading it was signed at. -/
theorem clientSignRequest_timestamp (client key nonce : String) (now : Int) (req : SRequest) :
    (clientSignRequest client key nonce now req).timestamp = now := rfl

/-- The canonical string of a signed request ignores the attached
signature. -/
theorem clientSignRequest_reqMsg (client key nonce : String) (now : Int) (req : SRequest) :
    reqMsg (clientSignRequest client key nonce now req) =
      reqMsg { req with nonce := nonce, timestamp := now, client := client } := rfl

/-- The attached signature is the HMAC of the canonical string. -/
theorem clientSignRequest_sig (client key nonce : String) (now : Int) (req : SRequest) :
    (clientSignRequest client key nonce now req).sig =
      rpcSign key (reqMsg { req with nonce := nonce, timestamp := now, client := client }) := rfl

/-- Requests that agree on every canonical field except the method have
different canonical strings whenever their methods differ. -/
theorem reqMsg_method_inj {r1 r2 : SRequest}
    (hc : r2.client = r1.client) (hu : r2.uid = r1.uid) (hn : r2.nonce = r1.nonce)
    (ht : r2.timestamp = r1.timestamp) (ha : r2.args = r1.args) (hkw : r2.kwargs = r1.kwargs)
    (hm : r2.method ≠ r1.method) : reqMsg r2 ≠ reqMsg r1 := by
  intro h
  apply hm
  have h' := congrArg String.data h
  simp only [reqMsg, reqParamsPart, reqParamsEntry, hc, hu, hn, ht, ha, hkw,
    String.data_append, List.append_assoc] at h'
  have h2 := List.append_cancel_left h'
  have h3 := List.append_cancel_right h2
  exact String.ext h3

/-- Requests that agree on every canonical field except the nonce have
different canonical strings whenever their nonces differ. -/
theorem reqMsg_nonce_inj {r1 r2 : SRequest}
    (hc : r2.client = r1.client) (hm : r2.method = r1.method) (hu : r2.uid = r1.uid)
    (ht : r2.timestamp = r1.timestamp) (ha : r2.args = r1.args) (hkw : r2.kwargs = r1.kwargs)
    (hn : r2.nonce ≠ r1.nonce) : reqMsg r2 ≠ reqMsg r1 := by
  intro h
  apply hn
  have h' := congrArg String.data h
  simp only [reqMsg, reqParamsPart, reqParamsEntry, hc, hm, hu, ht, ha, hkw,
    String.data_append, List.append_assoc] at h'
  have h2 := List.append_cancel_left h'
  have h3 := List.append_cancel_left h2
  have h4 := List.append_cancel_left h3
  have h5 := List.append_cancel_right h4
  exact String.ext h5

/-- Requests that agree on every canonical field except the timestamp have
different canonical strings whenever their timestamps differ. -/
theorem reqMsg_timestamp_inj {r1 r2 : SRequest}
    (hc : r2.client = r1.client) (hm : r2.method = r1.method) (hu : r2.uid = r1.uid)
    (hn : r2.nonce = r1.nonce) (ha : r2.args = r1.args) (hkw : r2.kwargs = r1.kwargs)
    (ht : r2.timestamp ≠ r1.timestamp) : reqMsg r2 ≠ reqMsg r1 := by
  intro h
  apply ht
  have h' := congrArg String.data h
  simp only [reqMsg, reqParamsPart, reqParamsEntry, hc, hm, hu, hn, ha, hkw,
    String.data_append, List.append_assoc] at h'
  have h2 := List.append_cancel_left h'
  have h3 := List.append_cancel_left h2
  have h4 := List.append_cancel_left h3
  have h5 := List.append_cancel_left h4
  have h6 := List.append_cancel_right h5
  exact intStr_inj (String.ext h6)

/-- Requests that agree on every canonical field except the params have
different canonical strings whenever their canonical params parts differ. -/
theorem reqMsg_params_inj {r1 r2 : SRequest}
    (hc : r2.client = r1.client) (hm : r2.method = r1.method) (hu : r2.uid = r1.uid)
    (hn : r2.nonce = r1.nonce) (ht : r2.timestamp = r1.timestamp)
    (hp : reqParamsPart r2 ≠ reqParamsPart r1) : reqMsg r2 ≠ reqMsg r1 := by
  intro h
  apply hp
  have h' := congrArg String.data h
  simp only [reqMsg, hc, hm, hu, hn, ht, String.data_append, List.append_assoc] at h'
  have h2 := List.append_cancel_left h'
  have h3 := List.append_cancel_left h2
  have h4 := List.append_cancel_left h3
  have h5 := List.append_cancel_left h4
  have h6 := List.append_cancel_left h5
  exact String.ext h6

/-- When the key is found and non-empty, the timestamp is inside the window
and the nonce fresh, a request whose recomputed signature differs from the
attached one fails with SignatureError. -/
theorem checkRequest_sig_mismatch
    (clients : List (String × String)) (stores : List (String × List (String × Int)))
    (now : Int) (r : SRequest) (key : String)
    (hkey : clients.lookup r.client = some key) (hne : key ≠ "")
    (hts : (now - r.timestamp).natAbs ≤ maxTimestampDelta)
    (hfresh : (pruneNonces now ((stores.lookup r.client).getD [])).lookup r.nonce = none)
    (hss : rpcSign key (reqMsg r) ≠ r.sig) :
    (serverCheckRequest clients stores now r).1 = SCheck.signatureError := by
  simp only [serverCheckRequest, serverCheckRequestNonce]
  rw [hkey]
  simp [hne, Nat.not_lt.mpr hts, hfresh, hss]

/-! ## Claim theorems -/

/-- C5: when authentication is enabled, `client_check_response` never
accepts a response whose signature is empty or absent: every such response
fails verification, with a client-mismatch error or, once the identity
matches, a signature error (a genuine signature is never empty), in both
cases before the reply-nonce store is consulted or mutated. -/
theorem clientCheckResponse_rejects_empty_sig
    (client key : String) (store : List (String × Int)) (now : Int) (resp : SResponse)
    (hsig : resp.sig = "") :
    clientCheckResponse client key store now resp = .ok (CCheck.clientMismatch, store) ∨
    clientCheckResponse client key store now resp = .ok (CCheck.sigError, store) := by
  unfold clientCheckResponse
  by_cases hc : resp.client ≠ client
  · left
    simp [hc]
  · right
    have hs : resp.sig ≠ rpcSign key (respMsg resp) := by
      rw [hsig]
      exact (rpcSign_ne_empty key (respMsg resp)).symm
    simp [hc, hs]

/-- Witness for C5: a concrete response with an empty signature is
rejected. -/
theorem clientCheckResponse_rejects_empty_sig_witness :
    wRespEmptySig.sig = "" ∧
    (clientCheckResponse "alice" "k" [] 0 wRespEmptySig =
        .ok (CCheck.clientMismatch, []) ∨
     clientCheckResponse "alice" "k" [] 0 wRespEmptySig =
        .ok (CCheck.sigError, [])) :=
  ⟨rfl, clientCheckResponse_rejects_empty_sig "alice" "k" [] 0 wRespEmptySig rfl⟩

/-- C6 (amended): `create_request` with truthy args and truthy kwargs fails
with an InvalidRequest error in the JSONRPC and PyRPC codecs; the PickleRPC
codec performs no such check and returns a request carrying both. -/
theorem createRequest_exclusivity
    (c1 c2 c3 : Int) (m : String) (args : List JScalar)
    (kwargs : List (String × JScalar)) (ow : Bool)
    (ha : args ≠ []) (hk : kwargs ≠ []) :
    jsonrpcCreateRequest c1 m args kwargs ow =
      .error (.invalidRequestShadow "Does not support args and kwargs at the same time.") ∧
    pyrpcCreateRequest c2 m args kwargs ow =
      .error ⟨-32600, "Does not support args and kwargs at the same time.", none⟩ ∧
    picklerpcCreateRequest c3 m args kwargs ow =
      .ok (⟨m, if ow then none else some (c3 + 1), args, kwargs⟩,
           if ow then c3 else c3 + 1) := by
  refine ⟨?_, ?_, ?_⟩ <;> cases ow <;>
    simp [jsonrpcCreateRequest, pyrpcCreateRequest, picklerpcCreateRequest, ha, hk]

/-- Witness for C6 at concrete non-empty args and kwargs. -/
theorem createRequest_exclusivity_witness :
    jsonrpcCreateRequest 0 "m" [.num 1] [("a", .num 2)] false =
      .error (.invalidRequestShadow "Does not support args and kwargs at the same time.") ∧
    pyrpcCreateRequest 0 "m" [.num 1] [("a", .num 2)] false =
      .error ⟨-32600, "Does not support args and kwargs at the same time.", none⟩ ∧
    picklerpcCreateRequest 0 "m" [.num 1] [("a", .num 2)] false =
      .ok (⟨"m", some 1, [.num 1], [("a", .num 2)]⟩, 1) :=
  createRequest_exclusivity 0 0 0 "m" [.num 1] [("a", .num 2)] false
    (by decide) (by decide)

/-- Counterexample to C6 as stated: the PickleRPC variant's
`create_request`, called with non-empty args and non-empty kwargs, raises
nothing and returns a request carrying both. -/
theorem picklerpc_accepts_args_and_kwargs :
    picklerpcCreateRequest 0 "m" [.num 1] [("a", .num 2)] false =
      .ok (⟨"m", some 1, [.num 1], [("a", .num 2)]⟩, 1) := rfl

/-- C8: the JSONRPC `create_error_response` passes an exception that
already carries a `(code, message, data)` triple through unchanged, but the
PyRPC `create_error_response` maps a taxonomy-coded exception (here
MethodNotFound, code `-32601`) to InternalError (`-32603`) because both
arms of its conditional build `InternalError()`. -/
theorem createErrorResponse_code_preservation :
    (∀ (c : Int) (m : String) (d : Option JScalar) (uid : Option Int),
      jsonrpcCreateErrorResponse (.rpcError c m d) uid = .ok ⟨uid, c, m, d⟩) ∧
    pyrpcCreateErrorResponse (.rpcError (-32601) "Method not found" none) (some 1) =
      ⟨some 1, -32603, "Internal error", none⟩ :=
  ⟨fun _ _ _ _ => rfl, rfl⟩

/-- The id sequence of `n` sequential calls on a counter starting at `c` is
`[c+1, ..., c+n]`. -/
theorem jsonrpcSeqIds_eq (c : Int) (n : Nat) :
    jsonrpcSeqIds c n = (List.range n).map (fun i : Nat => c + 1 + (i : Int)) := by
  induction n generalizing c with
  | zero => simp [jsonrpcSeqIds]
  | succ n ih =>
    have hstep : jsonrpcSeqIds c (n + 1) = (c + 1) :: jsonrpcSeqIds (c + 1) n := by
      simp [jsonrpcSeqIds, jsonrpcCreateRequest]
    rw [hstep, ih, List.range_succ_eq_map, List.map_cons, List.map_map]
    refine List.cons_eq_cons.mpr ⟨by simp, ?_⟩
    refine List.map_congr_left ?_
    intro a _
    simp only [Function.comp_apply]
    push_cast
    ring

/-- The id sequence of `n` sequential calls on a PyRPC counter starting at
`c` is `[c+1, ..., c+n]`. -/
theorem pyrpcSeqIds_eq (c : Int) (n : Nat) :
    pyrpcSeqIds c n = (List.range n).map (fun i : Nat => c + 1 + (i : Int)) := by
  induction n generalizing c with
  | zero => simp [pyrpcSeqIds]
  | succ n ih =>
    have hstep : pyrpcSeqIds c (n + 1) = (c + 1) :: pyrpcSeqIds (c + 1) n := by
      simp [pyrpcSeqIds, pyrpcCreateRequest]
    rw [hstep, ih, List.range_succ_eq_map, List.map_cons, List.map_map]
    refine List.cons_eq_cons.mpr ⟨by simp, ?_⟩
    refine List.map_congr_left ?_
    intro a _
    simp only [Function.comp_apply]
    push_cast
    ring

/-- The id ladder `c+1, ..., c+n` is strictly increasing. -/
theorem rangeIds_chain (c : Int) (n : Nat) :
    ((List.range n).map (fun i : Nat => c + 1 + (i : Int))).Chain' (· < ·) := by
  refine List.Pairwise.chain' ?_
  refine List.pairwise_map.mpr ?_
  refine (List.pairwise_lt_range n).imp ?_
  intro a b hab
  omega

/-- The id ladder `c+1, ..., c+n` has no duplicates. -/
theorem rangeIds_nodup (c : Int) (n : Nat) :
    ((List.range n).map (fun i : Nat => c + 1 + (i : Int))).Nodup := by
  refine (List.nodup_range n).map ?_
  intro a b hab
  have hab' : c + 1 + (a : Int) = c + 1 + (b : Int) := hab
  omega

/-- C9 (amended): on both the JSONRPC and the PyRPC codec, `n` sequential
non-one-way `create_request` calls on one instance with configured initial
counter `c` yield the strictly increasing, pairwise distinct ids
`c+1, ..., c+n`: the first id is the initial counter value plus one, not
the counter value itself. -/
theorem createRequest_ids_monotone (c : Int) (n : Nat) :
    (jsonrpcSeqIds c n = (List.range n).map (fun i : Nat => c + 1 + (i : Int)) ∧
     (jsonrpcSeqIds c n).Chain' (· < ·) ∧ (jsonrpcSeqIds c n).Nodup) ∧
    (pyrpcSeqIds c n = (List.range n).map (fun i : Nat => c + 1 + (i : Int)) ∧
     (pyrpcSeqIds c n).Chain' (· < ·) ∧ (pyrpcSeqIds c n).Nodup) := by
  refine ⟨⟨jsonrpcSeqIds_eq c n, ?_, ?_⟩, ⟨pyrpcSeqIds_eq c n, ?_, ?_⟩⟩
  · rw [jsonrpcSeqIds_eq]
    exact rangeIds_chain c n
  · rw [jsonrpcSeqIds_eq]
    exact rangeIds_nodup c n
  · rw [pyrpcSeqIds_eq]
    exact rangeIds_chain c n
  · rw [pyrpcSeqIds_eq]
    exact rangeIds_nodup c n

/-- Counterexample to C9 as stated: with the counter configured to start at
5, the first id handed out is 6, not 5. -/
theorem jsonrpcSeqIds_first_id_not_counter :
    jsonrpcSeqIds 5 1 = [6] ∧ (6 : Int) ≠ 5 := by
  refine ⟨rfl, by decide⟩

/-- C1 (amended): for every request, signing it with `client_sign_request`
and verifying with `server_check_request` on a server whose key table maps
the client identity to the same secret key succeeds, provided the key is
non-empty (the server treats a falsy key as an unknown client), the nonce
is fresh and the two clock readings agree within the window. -/
theorem signRequest_checkRequest_ok
    (clients : List (String × String)) (stores : List (String × List (String × Int)))
    (nowC nowS : Int) (client key nonce : String) (req : SRequest)
    (hkey : clients.lookup client = some key) (hne : key ≠ "")
    (hts : (nowS - nowC).natAbs ≤ maxTimestampDelta)
    (hfresh : (pruneNonces nowS ((stores.lookup client).getD [])).lookup nonce = none) :
    (serverCheckRequest clients stores nowS
      (clientSignRequest client key nonce nowC req)).1 = SCheck.ok := by
  simp only [serverCheckRequest, serverCheckRequestNonce, clientSignRequest_client,
    clientSignRequest_nonce, clientSignRequest_timestamp, clientSignRequest_reqMsg,
    clientSignRequest_sig]
  rw [hkey]
  simp [hne, Nat.not_lt.mpr hts, hfresh]

/-- Witness for C1 at a concrete signed request and matching key table. -/
theorem signRequest_checkRequest_ok_witness :
    (serverCheckRequest [("alice", "k")] [] 5000 wSigned).1 = SCheck.ok :=
  signRequest_checkRequest_ok [("alice", "k")] [] 5000 5000 "alice" "k" "n" wBase
    rfl (by decide) (by decide) rfl

/-- Counterexample to C1 as stated: when the shared secret key is the empty
string, the key table does map the client to the very key the request was
signed with, the nonce is fresh and the clocks agree, yet
`server_check_request` fails with UnknownClientError because `if not key`
treats the falsy key as unregistered. -/
theorem emptyKey_checkRequest_unknownClient :
    List.lookup "alice" [("alice", "")] = some "" ∧
    (serverCheckRequest [("alice", "")] [] 5000 wSignedEmptyKey).1 = SCheck.unknownClient :=
  ⟨rfl, rfl⟩

/-- C2: a request accepted by `server_check_request` leaves its nonce
recorded, so a second request from the same client carrying the identical
nonce, checked within the timestamp window, fails with NonceError. -/
theorem checkRequest_replay_nonceError
    (clients : List (String × String)) (stores : List (String × List (String × Int)))
    (now1 now2 : Int) (req1 req2 : SRequest) (key key2 : String)
    (h1key : clients.lookup req1.client = some key) (h1ne : key ≠ "")
    (h1ts : (now1 - req1.timestamp).natAbs ≤ maxTimestampDelta)
    (h1fresh : (pruneNonces now1 ((stores.lookup req1.client).getD [])).lookup req1.nonce = none)
    (h1sig : req1.sig = rpcSign key (reqMsg req1))
    (hc : req2.client = req1.client) (hn : req2.nonce = req1.nonce)
    (h2key : clients.lookup req2.client = some key2) (h2ne : key2 ≠ "")
    (h2ts : (now2 - req2.timestamp).natAbs ≤ maxTimestampDelta)
    (hwin : (now2 - now1).natAbs ≤ maxTimestampDelta) :
    (serverCheckRequest clients stores now1 req1).1 = SCheck.ok ∧
    (serverCheckRequest clients ((serverCheckRequest clients stores now1 req1).2)
      now2 req2).1 = SCheck.nonceError := by
  have hrun1 : serverCheckRequest clients stores now1 req1 =
      (SCheck.ok, setAssoc stores req1.client
        (pruneNonces now1 ((stores.lookup req1.client).getD []) ++ [(req1.nonce, now1)])) := by
    simp only [serverCheckRequest, serverCheckRequestNonce]
    rw [h1key]
    simp [h1ne, Nat.not_lt.mpr h1ts, h1fresh, h1sig]
  refine ⟨by rw [hrun1], ?_⟩
  rw [hrun1]
  simp only [serverCheckRequest, serverCheckRequestNonce]
  rw [h2key, hc, hn, lookup_setAssoc_self]
  have hmem : (req1.nonce, now1) ∈ pruneNonces now2
      (pruneNonces now1 ((stores.lookup req1.client).getD []) ++ [(req1.nonce, now1)]) := by
    refine List.mem_filter.mpr ⟨List.mem_append_right _ ?_, ?_⟩
    · exact List.mem_singleton_self _
    · simpa using hwin
  have hsome := lookup_isSome_of_mem hmem
  simp [h2ne, Nat.not_lt.mpr h2ts, hsome]

/-- Witness for C2: replaying the very same signed request immediately. -/
theorem checkRequest_replay_nonceError_witness :
    (serverCheckRequest [("alice", "k")] [] 5000 wSigned).1 = SCheck.ok ∧
    (serverCheckRequest [("alice", "k")]
      ((serverCheckRequest [("alice", "k")] [] 5000 wSigned).2) 5000 wSigned).1 =
      SCheck.nonceError :=
  checkRequest_replay_nonceError [("alice", "k")] [] 5000 5000 wSigned wSigned "k" "k"
    rfl (by decide) (by decide) rfl rfl rfl rfl rfl (by decide) (by decide) (by decide)

/-- C4: with the key found and non-empty, the nonce fresh and the signature
matching, a request timestamped `now - 3600 - 1` fails with TimestampError
while one timestamped `now - 3600 + 1` passes the whole check. -/
theorem checkRequest_timestamp_boundary
    (clients : List (String × String)) (stores : List (String × List (String × Int)))
    (now : Int) (req : SRequest) (key : String)
    (hkey : clients.lookup req.client = some key) (hne : key ≠ "")
    (hfresh : (pruneNonces now ((stores.lookup req.client).getD [])).lookup req.nonce = none)
    (hsig : req.sig = rpcSign key (reqMsg req))
    (hts : req.timestamp = now - 3600 + 1) :
    (serverCheckRequest clients stores now
      { req with timestamp := now - 3600 - 1 }).1 = SCheck.timestampError ∧
    (serverCheckRequest clients stores now req).1 = SCheck.ok := by
  constructor
  · have h1 : now - (now - 3600 - 1) = 3601 := by ring
    simp only [serverCheckRequest]
    rw [hkey]  -- hmm: may need projection reduction first
    simp [hne, h1, maxTimestampDelta]
  · have h2 : now - (now - 3600 + 1) = 3599 := by ring
    simp only [serverCheckRequest, serverCheckRequestNonce]
    rw [hkey, hts]
    simp [hne, h2, hfresh, hsig, maxTimestampDelta]

/-- Witness for C4 with a server clock of 5000 and the boundary at 1400. -/
theorem checkRequest_timestamp_boundary_witness :
    (serverCheckRequest [("alice", "k")] [] 5000
      { wStale with timestamp := 5000 - 3600 - 1 }).1 = SCheck.timestampError ∧
    (serverCheckRequest [("alice", "k")] [] 5000 wStale).1 = SCheck.ok :=
  checkRequest_timestamp_boundary [("alice", "k")] [] 5000 wStale "k"
    rfl (by decide) rfl rfl (by decide)

/-- C10: `client_check_response` tests and records the response nonce
before checking the timestamp: a response passing the client-identity and
signature checks whose timestamp lies outside the window is rejected with a
timestamp error, and its nonce has already been recorded in the reply-nonce
store the call returns.  The hypothesis that no store entry is stale is the
condition for the nonce prune to complete at all: with a stale entry
present the prune itself raises `RuntimeError` and no timestamp error is
ever reached (see `clientCheckResponseNonce`). -/
theorem clientCheckResponse_records_nonce_before_timestamp
    (client key : String) (store : List (String × Int)) (now : Int) (resp : SResponse)
    (hc : resp.client = client)
    (hsig : resp.sig = rpcSign key (respMsg resp))
    (hstale : store.find? (fun p => maxTimestampDelta < (now - p.2).natAbs) = none)
    (hfresh : store.lookup resp.nonce = none)
    (hts : maxTimestampDelta < (now - resp.timestamp).natAbs) :
    clientCheckResponse client key store now resp =
      .ok (CCheck.timestampError, store ++ [(resp.nonce, now)]) ∧
    (store ++ [(resp.nonce, now)]).lookup resp.nonce = some now := by
  constructor
  · simp only [clientCheckResponse, clientCheckResponseNonce]
    simp [hc, hsig, hstale, hfresh, hts]
  · rw [lookup_append_of_none _ _ hfresh]
    simp [List.lookup]

/-- Witness for C10: a stale but otherwise valid response, checked at time
10000 against an empty reply-nonce store, is rejected with a timestamp
error and its nonce is recorded. -/
theorem clientCheckResponse_records_nonce_witness :
    clientCheckResponse "alice" "k" [] 10000 wResp =
      .ok (CCheck.timestampError, [(wResp.nonce, 10000)]) ∧
    ([(wResp.nonce, 10000)] : List (String × Int)).lookup wResp.nonce = some 10000 :=
  clientCheckResponse_records_nonce_before_timestamp "alice" "k" [] 10000 wResp
    rfl rfl rfl rfl (by decide)

/-- C3 (amended): a modification confined to a single signed canonical
field — the method, the nonce, the timestamp, or the params (as far as it
changes their canonical serialization) — with every other field unchanged
always changes the canonical request string, and `server_check_request`
then fails with SignatureError whenever the recomputed HMAC of the altered
string differs from the attached signature (i.e. short of an HMAC
collision).  A modification spanning adjacent canonical fields can leave
the separator-free canonical string unchanged and is then accepted (see the
counterexample); likewise, params modifications that re-encode to the same
canonical serialization are accepted by design (the signature covers the
canonical form, not the wire bytes). -/
theorem checkRequest_single_field_tamper :
    (∀ (clients : List (String × String)) (stores : List (String × List (String × Int)))
       (now : Int) (r1 r2 : SRequest) (key : String),
       r2.client = r1.client → r2.uid = r1.uid → r2.nonce = r1.nonce →
       r2.timestamp = r1.timestamp → r2.args = r1.args → r2.kwargs = r1.kwargs →
       r2.method ≠ r1.method →
       r2.sig = r1.sig → r1.sig = rpcSign key (reqMsg r1) →
       clients.lookup r2.client = some key → key ≠ "" →
       (now - r2.timestamp).natAbs ≤ maxTimestampDelta →
       (pruneNonces now ((stores.lookup r2.client).getD [])).lookup r2.nonce = none →
       rpcSign key (reqMsg r2) ≠ rpcSign key (reqMsg r1) →
       reqMsg r2 ≠ reqMsg r1 ∧
       (serverCheckRequest clients stores now r2).1 = SCheck.signatureError) ∧
    (∀ (clients : List (String × String)) (stores : List (String × List (String × Int)))
       (now : Int) (r1 r2 : SRequest) (key : String),
       r2.client = r1.client → r2.method = r1.method → r2.uid = r1.uid →
       r2.timestamp = r1.timestamp → r2.args = r1.args → r2.kwargs = r1.kwargs →
       r2.nonce ≠ r1.nonce →
       r2.sig = r1.sig → r1.sig = rpcSign key (reqMsg r1) →
       clients.lookup r2.client = some key → key ≠ "" →
       (now - r2.timestamp).natAbs ≤ maxTimestampDelta →
       (pruneNonces now ((stores.lookup r2.client).getD [])).lookup r2.nonce = none →
       rpcSign key (reqMsg r2) ≠ rpcSign key (reqMsg r1) →
       reqMsg r2 ≠ reqMsg r1 ∧
       (serverCheckRequest clients stores now r2).1 = SCheck.signatureError) ∧
    (∀ (clients : List (String × String)) (stores : List (String × List (String × Int)))
       (now : Int) (r1 r2 : SRequest) (key : String),
       r2.client = r1.client → r2.method = r1.method → r2.uid = r1.uid →
       r2.nonce = r1.nonce → r2.args = r1.args → r2.kwargs = r1.kwargs →
       r2.timestamp ≠ r1.timestamp →
       r2.sig = r1.sig → r1.sig = rpcSign key (reqMsg r1) →
       clients.lookup r2.client = some key → key ≠ "" →
       (now - r2.timestamp).natAbs ≤ maxTimestampDelta →
       (pruneNonces now ((stores.lookup r2.client).getD [])).lookup r2.nonce = none →
       rpcSign key (reqMsg r2) ≠ rpcSign key (reqMsg r1) →
       reqMsg r2 ≠ reqMsg r1 ∧
       (serverCheckRequest clients stores now r2).1 = SCheck.signatureError) ∧
    (∀ (clients : List (String × String)) (stores : List (String × List (String × Int)))
       (now : Int) (r1 r2 : SRequest) (key : String),
       r2.client = r1.client → r2.method = r1.method → r2.uid = r1.uid →
       r2.nonce = r1.nonce → r2.timestamp = r1.timestamp →
       reqParamsPart r2 ≠ reqParamsPart r1 →
       r2.sig = r1.sig → r1.sig = rpcSign key (reqMsg r1) →
       clients.lookup r2.client = some key → key ≠ "" →
       (now - r2.timestamp).natAbs ≤ maxTimestampDelta →
       (pruneNonces now ((stores.lookup r2.client).getD [])).lookup r2.nonce = none →
       rpcSign key (reqMsg r2) ≠ rpcSign key (reqMsg r1) →
       reqMsg r2 ≠ reqMsg r1 ∧
       (serverCheckRequest clients stores now r2).1 = SCheck.signatureError) := by
  refine ⟨?_, ?_, ?_, ?_⟩
  · intro clients stores now r1 r2 key hc hu hn ht ha hkw hm hsig h1sig hkey hne hts hfresh hcol
    refine ⟨reqMsg_method_inj hc hu hn ht ha hkw hm,
      checkRequest_sig_mismatch clients stores now r2 key hkey hne hts hfresh ?_⟩
    rw [hsig, h1sig]
    exact hcol
  · intro clients stores now r1 r2 key hc hm hu ht ha hkw hn hsig h1sig hkey hne hts hfresh hcol
    refine ⟨reqMsg_nonce_inj hc hm hu ht ha hkw hn,
      checkRequest_sig_mismatch clients stores now r2 key hkey hne hts hfresh ?_⟩
    rw [hsig, h1sig]
    exact hcol
  · intro clients stores now r1 r2 key hc hm hu hn ha hkw ht hsig h1sig hkey hne hts hfresh hcol
    refine ⟨reqMsg_timestamp_inj hc hm hu hn ha hkw ht,
      checkRequest_sig_mismatch clients stores now r2 key hkey hne hts hfresh ?_⟩
    rw [hsig, h1sig]
    exact hcol
  · intro clients stores now r1 r2 key hc hm hu hn ht hp hsig h1sig hkey hne hts hfresh hcol
    refine ⟨reqMsg_params_inj hc hm hu hn ht hp,
      checkRequest_sig_mismatch clients stores now r2 key hkey hne hts hfresh ?_⟩
    rw [hsig, h1sig]
    exact hcol

set_option maxRecDepth 1000000 in
set_option maxHeartbeats 4000000 in
/-- Witness for C3 (amended): on a concrete signed request, changing only
the method, only the nonce, only the timestamp, or only the params while
keeping the attached signature is caught as a SignatureError in each case. -/
theorem checkRequest_single_field_tamper_witness :
    (reqMsg tMethod ≠ reqMsg tOrig ∧
     (serverCheckRequest [("alice", "k")] [] 1000 tMethod).1 = SCheck.signatureError) ∧
    (reqMsg tNonce ≠ reqMsg tOrig ∧
     (serverCheckRequest [("alice", "k")] [] 1000 tNonce).1 = SCheck.signatureError) ∧
    (reqMsg tTime ≠ reqMsg tOrig ∧
     (serverCheckRequest [("alice", "k")] [] 1000 tTime).1 = SCheck.signatureError) ∧
    (reqMsg tParams ≠ reqMsg tOrig ∧
     (serverCheckRequest [("alice", "k")] [] 1000 tParams).1 = SCheck.signatureError) :=
  ⟨checkRequest_single_field_tamper.1 [("alice", "k")] [] 1000 tOrig tMethod "k"
     rfl rfl rfl rfl rfl rfl (by decide) rfl rfl rfl (by decide) (by decide) rfl (by decide),
   checkRequest_single_field_tamper.2.1 [("alice", "k")] [] 1000 tOrig tNonce "k"
     rfl rfl rfl rfl rfl rfl (by decide) rfl rfl rfl (by decide) (by decide) rfl (by decide),
   checkRequest_single_field_tamper.2.2.1 [("alice", "k")] [] 1000 tOrig tTime "k"
     rfl rfl rfl rfl rfl rfl (by decide) rfl rfl rfl (by decide) (by decide) rfl (by decide),
   checkRequest_single_field_tamper.2.2.2 [("alice", "k")] [] 1000 tOrig tParams "k"
     rfl rfl rfl rfl rfl (by decide) rfl rfl rfl (by decide) (by decide) rfl (by decide)⟩

set_option maxRecDepth 1000000 in
/-- Counterexample to C3 as stated: tampering that changes bytes of two
signed canonical fields at once — method `"ab"`/nonce `"c"` turned into
method `"a"`/nonce `"bc"` — while keeping the attached signature leaves the
separator-free canonical string unchanged, so `server_check_request`
accepts the tampered request instead of failing with SignatureError. -/
theorem crossfield_tamper_accepted :
    tCross.method ≠ tOrig.method ∧ tCross.nonce ≠ tOrig.nonce ∧
    tCross.sig = tOrig.sig ∧ tOrig.sig = rpcSign "k" (reqMsg tOrig) ∧
    (serverCheckRequest [("alice", "k")] [] 1000 tCross).1 = SCheck.ok := by
  refine ⟨by decide, by decide, rfl, rfl, by decide⟩

/-- C7: `create_request` with `one_way=True` always yields a request with a
null id, but `Server.handler` does reply to a parsed one-way request: with
the JSONRPC codec `create_response` never returns `None`, so the handler
serializes and returns a success reply with a null id instead of returning
no bytes. -/
theorem serverHandler_replies_to_one_way :
    (∀ (c : Int) (m : String) (args : List JScalar) (kwargs : List (String × JScalar))
       (r : JRequest) (c' : Int),
       jsonrpcCreateRequest c m args kwargs true = .ok (r, c') → r.uid = none) ∧
    serverHandler owSerializer owDispatch "MSG" =
      .ok (some (jsonDumpsDoc (jsuccessToData ⟨none, .scalar (.num 7)⟩))) := by
  constructor
  · intro c m args kwargs r c' h
    unfold jsonrpcCreateRequest at h
    by_cases hak : args ≠ [] ∧ kwargs ≠ []
    · simp [hak] at h
    · simp [hak] at h
      obtain ⟨h1, -⟩ := h
      rw [← h1]
  · rfl

/-- Witness for C7: the one-way request id really is null, and the handler
really produces reply bytes for it. -/
theorem serverHandler_replies_to_one_way_witness :
    (⟨"ping", none, [], []⟩ : JRequest).uid = none ∧
    serverHandler owSerializer owDispatch "MSG" =
      .ok (some (jsonDumpsDoc (jsuccessToData ⟨none, .scalar (.num 7)⟩))) :=
  ⟨serverHandler_replies_to_one_way.1 0 "ping" [] [] ⟨"ping", none, [], []⟩ 0 rfl,
   serverHandler_replies_to_one_way.2⟩

end Sarpc
